import Mathlib

/-!
Shallow embedding of `sign.py` from the Shanghai-metro-guidance-sign
repository, together with proofs about its layout and validation behaviour.

Conventions of the embedding:
* Python `int` becomes `ℤ`; Python `//` on integers becomes `Int.fdiv`
  (floor division, matching Python's semantics on negative operands).
* Python float values that arise from `//` with a float divisor (e.g.
  `size // 1.5`, `thickness // 2.828`) are modelled exactly over `ℚ`,
  with the float literals `1.2`, `1.5`, `2.828`, `8.5` read as the
  rationals 6/5, 3/2, 707/250, 17/20.
* PIL font objects become a `Font` record (path and point size); glyph
  metrics (`font.getbbox(text)[2:]`) are an external collaborator and are
  modelled as an explicit parameter `μ : FontMetrics` threaded to every
  function that measures text, returning the bbox right/bottom pair.
* PIL draw calls become `DrawCmd` values accumulated in a list; the
  canvas owned by a `Sign` is the list of commands drawn so far.
* `raise ValueError(...)` becomes `Except.error` with the same message.
* The `colors.csv` file read by `get_color` is an external resource and
  is modelled as an explicit table parameter (a list of rows).
-/

/-- Python `ColorType = Union[float, tuple[int, ...], str]` (floats modelled
as rationals). -/
inductive ColorType where
  | num (q : ℚ)
  | tup (t : List ℤ)
  | str (s : String)
deriving DecidableEq

/-- Source constant `DEFAULT_FONT = "C:/Windows/Fonts/simhei.ttf"`. -/
def DEFAULT_FONT : String := "C:/Windows/Fonts/simhei.ttf"

/-- Source constant `DEFAULT_EN_FONT = "C:/Windows/Fonts/Arial.ttf"`. -/
def DEFAULT_EN_FONT : String := "C:/Windows/Fonts/Arial.ttf"

/-- Source constant `EXIT_COLOR = "#FFD10F"`. -/
def EXIT_COLOR : ColorType := .str ("#FFD10F")

/-- Embeds `class Size(NamedTuple)`: width and height. -/
structure Size where
  width : ℤ
  height : ℤ
deriving DecidableEq

/-- Python floor division where at least one operand is a non-integral
number: `a // b` over exact rationals (result is an integral value, kept
in `ℚ` as Python keeps it as a float). -/
def pyFloorDivQ (a b : ℚ) : ℚ := ((a / b).floor : ℤ)

/-- Python built-in `round` on an exact rational: round half to even. -/
def pyRound (q : ℚ) : ℤ :=
  let f := q.floor
  let r := q - (f : ℚ)
  if r < 1/2 then f
  else if 1/2 < r then f + 1
  else if f % 2 = 0 then f else f + 1

/-- A PIL truetype font: `ImageFont.truetype(path, size)`. -/
structure Font where
  path : String
  ptSize : ℚ
deriving DecidableEq

/-- External glyph metrics: given a font and a text, the right and bottom
coordinates of `font.getbbox(text)` (entries `[2]` and `[3]`). -/
abbrev FontMetrics := Font → String → ℚ × ℚ

/-- One PIL draw call issued against the shared canvas. -/
inductive DrawCmd where
  | polygon (xy : List (ℚ × ℚ)) (fill : ColorType)
  | rectangle (xy : List (ℚ × ℚ)) (fill : ColorType) (lineW : Option ℤ)
  | text (pos : ℚ × ℚ) (s : String) (fill : ColorType) (font : Font)
deriving DecidableEq

/-- A Python line identifier as passed to `get_color` / `NumberLine`:
`int | str`. -/
inductive PyVal where
  | int (n : ℤ)
  | str (s : String)
deriving DecidableEq

/-- Python `str(...)` applied to an `int | str` value. -/
def PyVal.toStr : PyVal → String
  | .int n => toString n
  | .str s => s

/-- One row of `colors.csv` as produced by `csv.DictReader`. -/
structure ColorRow where
  Line : String
  BackgroundColor : String
  TextColor : String
deriving DecidableEq

/-- The error message raised by `get_color` when no row matches. -/
def colorErrMsg (ls : String) : String :=
  "未找到线路 " ++ ls ++ " 的颜色信息，请检查 colors.csv 文件。"

/-- Embeds `def get_color(line)`: scan the rows of `colors.csv` (passed here as
the explicit `table`) for the first row whose `Line` column, as a string,
equals `str(line)`; return its colour pair, else raise `ValueError`. -/
def get_color (table : List ColorRow) (line : PyVal) :
    Except String (String × String) :=
  match table.find? (fun row => row.Line == line.toStr) with
  | some row => .ok (row.BackgroundColor, row.TextColor)
  | none => .error (colorErrMsg line.toStr)

/-- Embeds `class Arrow(Element)`: size, colour, thickness, direction. The
`direction` parameter is annotated `Literal["up","down","left","right"]`
in the source but never validated, so it is kept as a raw string here. -/
structure Arrow where
  size : ℤ
  color : ColorType
  thickness : ℤ
  direction : String
deriving DecidableEq

/-- Embeds `Arrow.__init__`: `thickness` defaults to `size // 4` when `None`;
`direction` defaults to `"left"` at the call site when unspecified. -/
def Arrow.make (size : ℤ) (color : ColorType) (thickness : Option ℤ)
    (direction : String) : Arrow :=
  ⟨size, color, thickness.getD (size.fdiv 4), direction⟩

/-- Embeds `Arrow.get_size`: a square of side `size`. -/
def Arrow.get_size (a : Arrow) : Size := ⟨a.size, a.size⟩

/-- The float literal `2.828` of `Arrow.draw` as an exact rational. -/
def diagDivisor : ℚ := 707/250

/-- Embeds `Arrow.draw`: two head trapezoids (`rect_1`, `rect_2`) and the shaft
rectangle, orientation chosen by matching `direction` against the four
known strings; any other string leaves all three coordinate lists empty,
exactly as the `if/elif` chain in the source does. -/
def Arrow.draw (a : Arrow) (x y : ℤ) : List DrawCmd :=
  let center_x := x + a.size.fdiv 2
  let center_y := y + a.size.fdiv 2
  let s3 := a.size.fdiv 3
  let lists : List (ℚ × ℚ) × List (ℚ × ℚ) × List (ℚ × ℚ) :=
    if a.direction = "left" then
      ⟨[((x : ℚ), (center_y : ℚ)),
        ((x + a.thickness : ℚ), (center_y : ℚ)),
        ((x + a.thickness + s3 : ℚ), (center_y - s3 : ℚ)),
        ((x + s3 : ℚ), (center_y - s3 : ℚ))],
       [((x : ℚ), (center_y : ℚ)),
        ((x + a.thickness : ℚ), (center_y : ℚ)),
        ((x + a.thickness + s3 : ℚ), (center_y + s3 : ℚ)),
        ((x + s3 : ℚ), (center_y + s3 : ℚ))],
       [((x + a.thickness.fdiv 2 : ℚ),
         (center_y : ℚ) - pyFloorDivQ (a.thickness : ℚ) diagDivisor),
        ((x + a.size : ℚ),
         (center_y : ℚ) + pyFloorDivQ (a.thickness : ℚ) diagDivisor)]⟩
    else if a.direction = "right" then
      ⟨[((x + a.size : ℚ), (center_y : ℚ)),
        ((x + a.size - a.thickness : ℚ), (center_y : ℚ)),
        ((x + a.size - a.thickness - s3 : ℚ), (center_y - s3 : ℚ)),
        ((x + a.size - s3 : ℚ), (center_y - s3 : ℚ))],
       [((x + a.size : ℚ), (center_y : ℚ)),
        ((x + a.size - a.thickness : ℚ), (center_y : ℚ)),
        ((x + a.size - a.thickness - s3 : ℚ), (center_y + s3 : ℚ)),
        ((x + a.size - s3 : ℚ), (center_y + s3 : ℚ))],
       [((x : ℚ), (center_y : ℚ) - pyFloorDivQ (a.thickness : ℚ) diagDivisor),
        ((x + a.size - a.thickness.fdiv 2 : ℚ),
         (center_y : ℚ) + pyFloorDivQ (a.thickness : ℚ) diagDivisor)]⟩
    else if a.direction = "up" then
      ⟨[((center_x : ℚ), (y : ℚ)),
        ((center_x : ℚ), (y + a.thickness : ℚ)),
        ((center_x - s3 : ℚ), (y + a.thickness + s3 : ℚ)),
        ((center_x - s3 : ℚ), (y + s3 : ℚ))],
       [((center_x : ℚ), (y : ℚ)),
        ((center_x : ℚ), (y + a.thickness : ℚ)),
        ((center_x + s3 : ℚ), (y + a.thickness + s3 : ℚ)),
        ((center_x + s3 : ℚ), (y + s3 : ℚ))],
       [((center_x : ℚ) - pyFloorDivQ (a.thickness : ℚ) diagDivisor,
         (y + a.thickness.fdiv 2 : ℚ)),
        ((center_x : ℚ) + pyFloorDivQ (a.thickness : ℚ) diagDivisor,
         (y + a.size : ℚ))]⟩
    else if a.direction = "down" then
      ⟨[((center_x : ℚ), (y + a.size : ℚ)),
        ((center_x : ℚ), (y + a.size - a.thickness : ℚ)),
        ((center_x - s3 : ℚ), (y + a.size - a.thickness - s3 : ℚ)),
        ((center_x - s3 : ℚ), (y + a.size - s3 : ℚ))],
       [((center_x : ℚ), (y + a.size : ℚ)),
        ((center_x : ℚ), (y + a.size - a.thickness : ℚ)),
        ((center_x + s3 : ℚ), (y + a.size - a.thickness - s3 : ℚ)),
        ((center_x + s3 : ℚ), (y + a.size - s3 : ℚ))],
       [((center_x : ℚ) - pyFloorDivQ (a.thickness : ℚ) diagDivisor,
         (y : ℚ)),
        ((center_x : ℚ) + pyFloorDivQ (a.thickness : ℚ) diagDivisor,
         (y + a.size - a.thickness.fdiv 2 : ℚ))]⟩
    else
      ⟨[], [], []⟩
  [DrawCmd.polygon lists.1 a.color,
   DrawCmd.polygon lists.2.1 a.color,
   DrawCmd.rectangle lists.2.2 a.color none]

/-- The `align` parameter of `BilingualText`: `Literal["left", "right"]`. -/
inductive TextAlign where
  | left
  | right
deriving DecidableEq

/-- Embeds `class BilingualText(Element)`: the fields stored by `__init__`,
including the two fonts and the two text widths computed there. -/
structure BilingualText where
  size : ℤ
  text : String
  text_en : String
  color : ColorType
  align : TextAlign
  font : Font
  en_font : Font
  text_width : ℤ
  text_en_width : ℤ
deriving DecidableEq

/-- Embeds `BilingualText.__init__`: builds the two fonts (`size // 1.5` for the
Chinese font, `size // 3` for the English one) and measures both texts with
`ceil(font.getbbox(text)[2])`, via the external metrics `μ`. -/
def BilingualText.make (μ : FontMetrics) (size : ℤ) (text text_en : String)
    (color : ColorType) (align : TextAlign) : BilingualText :=
  let font : Font := ⟨DEFAULT_FONT, pyFloorDivQ (size : ℚ) (3/2)⟩
  let en_font : Font := ⟨DEFAULT_EN_FONT, ((size.fdiv 3 : ℤ) : ℚ)⟩
  ⟨size, text, text_en, color, align, font, en_font,
   (μ font text).1.ceil, (μ en_font text_en).1.ceil⟩

/-- Embeds `BilingualText.get_size`: `(max(text_width, text_en_width), size)`. -/
def BilingualText.get_size (bt : BilingualText) : Size :=
  ⟨max bt.text_width bt.text_en_width, bt.size⟩

/-- The `Element.width` property, for a `BilingualText`. -/
def BilingualText.width (bt : BilingualText) : ℤ := bt.get_size.width

/-- Embeds `BilingualText.draw`: the Chinese line, then the English line inset by
`size // 30` and pushed down by `size * 2 // 3`; under right alignment
each line is right-justified against the shared max width. -/
def BilingualText.draw (bt : BilingualText) (x y : ℤ) : List DrawCmd :=
  let max_width := max bt.text_width bt.text_en_width
  let text_pos : ℚ × ℚ :=
    match bt.align with
    | .left => ((x : ℚ), (y : ℚ))
    | .right => ((x + max_width - bt.text_width : ℚ), (y : ℚ))
  let en_text_pos : ℚ × ℚ :=
    match bt.align with
    | .left => ((x + bt.size.fdiv 30 : ℚ), (y + (bt.size * 2).fdiv 3 : ℚ))
    | .right => ((x + max_width - bt.text_en_width - bt.size.fdiv 30 : ℚ),
                 (y + (bt.size * 2).fdiv 3 : ℚ))
  [DrawCmd.text text_pos bt.text bt.color bt.font,
   DrawCmd.text en_text_pos bt.text_en bt.color bt.en_font]

/-- Embeds `class ExitSign(Element)`: a right-aligned "出口"/"EXIT"
`BilingualText` plus an oversized code label. -/
structure ExitSign where
  size : ℤ
  code : String
  color : ColorType
  text : BilingualText
  font : Font
deriving DecidableEq

/-- Embeds `ExitSign.__init__`. -/
def ExitSign.make (μ : FontMetrics) (size : ℤ) (code : String)
    (color : ColorType) : ExitSign :=
  ⟨size, code, color,
   BilingualText.make μ size ("出口") ("EXIT") color .right,
   ⟨DEFAULT_EN_FONT, (size : ℚ) * (6/5)⟩⟩

/-- Embeds `ExitSign.get_size`: code width (measured at call time) plus the
inner text's width, by `size` high. -/
def ExitSign.get_size (μ : FontMetrics) (ex : ExitSign) : Size :=
  ⟨(μ ex.font ex.code).1.ceil + ex.text.width, ex.size⟩

/-- Embeds `ExitSign.draw`: draw the inner text, then the code at
`(x + text.width, y - size // 8)`. -/
def ExitSign.draw (ex : ExitSign) (x y : ℤ) : List DrawCmd :=
  ex.text.draw x y ++
    [DrawCmd.text ((x + ex.text.width : ℚ), (y - ex.size.fdiv 8 : ℚ))
      ex.code ex.color ex.font]

/-- The `line` argument of `NumberLine.__init__`: `int | str | list`. -/
inductive LineArg where
  | single (l : PyVal)
  | list (ls : List PyVal)
deriving DecidableEq

/-- The list-coercion plus `str` mapping at the top of
`NumberLine.__init__`: a non-list argument is wrapped into a one-element
list, then every entry goes through `str`. -/
def LineArg.toStrings : LineArg → List String
  | .single l => [l.toStr]
  | .list ls => ls.map PyVal.toStr

/-- Inclusive code-point ranges of the characters accepted by Python's
`str.isdigit`: those with Unicode property Numeric_Type = Decimal or
Digit, from the Unicode 14.0 database shipped with CPython 3.11. -/
def pyDigitRanges : List (Nat × Nat) :=
  [(0x30, 0x39), (0xB2, 0xB3), (0xB9, 0xB9), (0x660, 0x669),
   (0x6F0, 0x6F9), (0x7C0, 0x7C9), (0x966, 0x96F), (0x9E6, 0x9EF),
   (0xA66, 0xA6F), (0xAE6, 0xAEF), (0xB66, 0xB6F), (0xBE6, 0xBEF),
   (0xC66, 0xC6F), (0xCE6, 0xCEF), (0xD66, 0xD6F), (0xDE6, 0xDEF),
   (0xE50, 0xE59), (0xED0, 0xED9), (0xF20, 0xF29), (0x1040, 0x1049),
   (0x1090, 0x1099), (0x1369, 0x1371), (0x17E0, 0x17E9), (0x1810, 0x1819),
   (0x1946, 0x194F), (0x19D0, 0x19DA), (0x1A80, 0x1A89), (0x1A90, 0x1A99),
   (0x1B50, 0x1B59), (0x1BB0, 0x1BB9), (0x1C40, 0x1C49), (0x1C50, 0x1C59),
   (0x2070, 0x2070), (0x2074, 0x2079), (0x2080, 0x2089), (0x2460, 0x2468),
   (0x2474, 0x247C), (0x2488, 0x2490), (0x24EA, 0x24EA), (0x24F5, 0x24FD),
   (0x24FF, 0x24FF), (0x2776, 0x277E), (0x2780, 0x2788), (0x278A, 0x2792),
   (0xA620, 0xA629), (0xA8D0, 0xA8D9), (0xA900, 0xA909), (0xA9D0, 0xA9D9),
   (0xA9F0, 0xA9F9), (0xAA50, 0xAA59), (0xABF0, 0xABF9), (0xFF10, 0xFF19),
   (0x104A0, 0x104A9), (0x10A40, 0x10A43), (0x10D30, 0x10D39), (0x10E60, 0x10E68),
   (0x11052, 0x1105A), (0x11066, 0x1106F), (0x110F0, 0x110F9), (0x11136, 0x1113F),
   (0x111D0, 0x111D9), (0x112F0, 0x112F9), (0x11450, 0x11459), (0x114D0, 0x114D9),
   (0x11650, 0x11659), (0x116C0, 0x116C9), (0x11730, 0x11739), (0x118E0, 0x118E9),
   (0x11950, 0x11959), (0x11C50, 0x11C59), (0x11D50, 0x11D59), (0x11DA0, 0x11DA9),
   (0x16A60, 0x16A69), (0x16AC0, 0x16AC9), (0x16B50, 0x16B59), (0x1D7CE, 0x1D7FF),
   (0x1E140, 0x1E149), (0x1E2F0, 0x1E2F9), (0x1E950, 0x1E959), (0x1F100, 0x1F10A),
   (0x1FBF0, 0x1FBF9)]

/-- The per-character test underlying Python's `str.isdigit`. -/
def pyCharIsDigit (c : Char) : Bool :=
  pyDigitRanges.any (fun r => r.1 ≤ c.toNat && c.toNat ≤ r.2)

/-- Python `str.isdigit`: nonempty and every character is a digit in the
Unicode sense (so `"²"` and `"３"` count as digits). -/
def pyIsDigit (s : String) : Bool := s ≠ "" && s.data.all pyCharIsDigit

/-- The `ValueError` message for a non-digit line identifier. -/
def digitErrMsg : String := "线路编号必须是数字。对于文本标签线路，请使用另一个函数。"

/-- The `ValueError` message for an identifier of three or more digits. -/
def lengthErrMsg : String := "线路编号长度不支持超过2位数的线路。"

/-- Embeds `class NumberLine(Element)`. -/
structure NumberLine where
  size : ℤ
  lines : List String
  color : ColorType
  text : BilingualText
deriving DecidableEq

/-- Embeds `NumberLine.__init__`: coerce `line` to a list of digit strings,
raise `ValueError` unless all entries are digits, and build the trailing
`"号线"` / `"Line N,M,…"` label. -/
def NumberLine.make (μ : FontMetrics) (size : ℤ) (line : LineArg)
    (color : ColorType) : Except String NumberLine :=
  let lines := line.toStrings
  if lines.all pyIsDigit then
    .ok ⟨size, lines, color,
      BilingualText.make μ size ("号线")
        ("Line " ++ String.intercalate (",") lines) color .left⟩
  else
    .error digitErrMsg

/-- Embeds `NumberLine.get_size`: `size × count(lines)` plus the trailing
label's width, by `size` high. -/
def NumberLine.get_size (nl : NumberLine) : Size :=
  ⟨nl.size * nl.lines.length + nl.text.width, nl.size⟩

/-- The badge loop of `NumberLine.draw`: for each identifier, resolve its
colours (a missing row raises before anything of this badge is drawn),
draw the two bordered-box rectangles, pick the digit font by identifier
length, centre the digits, then advance the cursor by `size`. A three-or-
more-digit identifier raises the length `ValueError` only after the two
rectangles of its badge have already been drawn, exactly as in the
source, so the result carries the commands applied so far together with
the raised error, if any, and the final cursor. -/
def NumberLine.drawBadges (μ : FontMetrics) (table : List ColorRow)
    (size : ℤ) (elemColor : ColorType) (y : ℤ) :
    ℤ → List String → (List DrawCmd × ℤ) × Option String
  | x, [] => (([], x), none)
  | x, line :: rest =>
    match get_color table (.str line) with
    | .error m => (([], x), some m)
    | .ok colors =>
      let border_width := size.fdiv 30
      let box_width := pyRound ((size : ℚ) * (17/2) / 10)
      let cmd1 := DrawCmd.rectangle
        [((x : ℚ), (y : ℚ)), ((x + box_width : ℚ), (y + size : ℚ))]
        elemColor (some border_width)
      let cmd2 := DrawCmd.rectangle
        [((x + border_width : ℚ), (y + border_width : ℚ)),
         ((x + box_width - border_width : ℚ),
          (y + size - border_width : ℚ))]
        (.str colors.1) none
      if line.length = 1 ∨ line.length = 2 then
        let font : Font :=
          if line.length = 1 then
            ⟨DEFAULT_EN_FONT, pyFloorDivQ (size : ℚ) (6/5)⟩
          else
            ⟨DEFAULT_EN_FONT, pyFloorDivQ (size : ℚ) (3/2)⟩
        let wh := μ font line
        let text_x := (x : ℚ) + pyFloorDivQ ((box_width : ℚ) - wh.1) 2
        let text_y := (y : ℚ) + pyFloorDivQ ((size : ℚ) - wh.2) 2 -
          ((size.fdiv 15 : ℤ) : ℚ)
        let cmd3 := DrawCmd.text (text_x, text_y) line (.str colors.2) font
        let r := NumberLine.drawBadges μ table size elemColor y
          (x + size) rest
        (([cmd1, cmd2, cmd3] ++ r.1.1, r.1.2), r.2)
      else
        (([cmd1, cmd2], x), some lengthErrMsg)

/-- Embeds `NumberLine.draw`: the badge loop followed, when no badge
raised, by the trailing label drawn at the final cursor position; on an
error the partially drawn commands are kept and the error propagates. -/
def NumberLine.draw (nl : NumberLine) (μ : FontMetrics)
    (table : List ColorRow) (x y : ℤ) : List DrawCmd × Option String :=
  let r := NumberLine.drawBadges μ table nl.size nl.color y x nl.lines
  match r.2 with
  | none => (r.1.1 ++ nl.text.draw r.1.2 y, none)
  | some e => (r.1.1, some e)

/-- The closed set of concrete `Element` subclasses. -/
inductive Element where
  | arrow (a : Arrow)
  | bilingual (bt : BilingualText)
  | exitSign (ex : ExitSign)
  | numberLine (nl : NumberLine)
deriving DecidableEq

/-- Embeds `Element.get_size`, dispatched to the concrete class. Only
`ExitSign.get_size` measures text at call time, hence the `μ` parameter. -/
def Element.get_size (μ : FontMetrics) : Element → Size
  | .arrow a => a.get_size
  | .bilingual bt => bt.get_size
  | .exitSign ex => ex.get_size μ
  | .numberLine nl => nl.get_size

/-- The `Element.width` property. -/
def Element.width (μ : FontMetrics) (e : Element) : ℤ :=
  (e.get_size μ).width

/-- Embeds `Element.draw`, dispatched to the concrete class: the commands
the call applies to the canvas, plus the exception it raises, if any
(only `NumberLine.draw` can raise). -/
def Element.draw (μ : FontMetrics) (table : List ColorRow) (e : Element)
    (x y : ℤ) : List DrawCmd × Option String :=
  match e with
  | .arrow a => (a.draw x y, none)
  | .bilingual bt => (bt.draw x y, none)
  | .exitSign ex => (ex.draw x y, none)
  | .numberLine nl => nl.draw μ table x y

/-- Embeds `class Sign`: canvas owner. The alignment tag of `add_element` is a
raw string (the annotation `Literal["left","right","middle"]` is never
enforced; `example.py` even passes `"center"`). The canvas pixels are
modelled as the list of draw commands applied so far. -/
structure Sign where
  width : ℤ
  height : ℤ
  background_color : ColorType
  padding : ℤ
  elements : List (String × Element)
  image : List DrawCmd
deriving DecidableEq

/-- Embeds `Sign.__init__`: `padding` defaults to `height // 12`; the element
list starts empty and the canvas starts as the plain background. -/
def Sign.make (width height : ℤ) (background_color : ColorType)
    (padding : Option ℤ) : Sign :=
  ⟨width, height, background_color,
   padding.getD (height.fdiv 12), [], []⟩

/-- Embeds `Sign.add_element`: append `(align, element)`. -/
def Sign.add_element (s : Sign) (e : Element) (align : String) : Sign :=
  ⟨s.width, s.height, s.background_color, s.padding,
   s.elements ++ [(align, e)], s.image⟩

/-- The left/middle loop of `Sign.save`: place each element at the cursor,
then advance by `element.width + padding`. Returns `(element, x, y)` in
draw order. -/
def layoutRun (μ : FontMetrics) (padding y : ℤ) :
    ℤ → List Element → List (Element × ℤ × ℤ)
  | _, [] => []
  | posX, e :: rest =>
    (e, posX, y) :: layoutRun μ padding y (posX + e.width μ + padding) rest

/-- The right loop of `Sign.save` (applied to the reversed right group):
subtract the element's width, place it, then subtract one padding. -/
def layoutRight (μ : FontMetrics) (padding y : ℤ) :
    ℤ → List Element → List (Element × ℤ × ℤ)
  | _, [] => []
  | posX, e :: rest =>
    (e, posX - e.width μ, y) ::
      layoutRight μ padding y (posX - e.width μ - padding) rest

/-- The `left_elements` list of `Sign.save`: the elements whose alignment tag is `"left"`, in
insertion order. -/
def Sign.leftElements (s : Sign) : List Element :=
  (s.elements.filter (fun p => p.1 == "left")).map Prod.snd

/-- The `middle_elements` list of `Sign.save`. -/
def Sign.middleElements (s : Sign) : List Element :=
  (s.elements.filter (fun p => p.1 == "middle")).map Prod.snd

/-- The `right_elements` list of `Sign.save`. -/
def Sign.rightElements (s : Sign) : List Element :=
  (s.elements.filter (fun p => p.1 == "right")).map Prod.snd

/-- The middle group's starting cursor in `Sign.save`:
`(width - sum of widths - padding * (len - 1)) // 2`. The `len - 1`
factor is Python `int` arithmetic, so for an empty group it is `-1`. -/
def Sign.middleStartX (μ : FontMetrics) (s : Sign) : ℤ :=
  (s.width - ((s.middleElements.map (Element.width μ)).sum)
    - s.padding * ((s.middleElements.length : ℤ) - 1)).fdiv 2

/-- The placements of the left group in `Sign.save`: cursor starts at
`(padding, padding)`. -/
def Sign.leftPart (μ : FontMetrics) (s : Sign) : List (Element × ℤ × ℤ) :=
  layoutRun μ s.padding s.padding s.padding s.leftElements

/-- The placements of the middle group in `Sign.save`. -/
def Sign.middlePart (μ : FontMetrics) (s : Sign) : List (Element × ℤ × ℤ) :=
  layoutRun μ s.padding s.padding (s.middleStartX μ) s.middleElements

/-- The placements of the right group in `Sign.save`: cursor starts at
`width - padding` and the group is traversed in reverse insertion order. -/
def Sign.rightPart (μ : FontMetrics) (s : Sign) : List (Element × ℤ × ℤ) :=
  layoutRight μ s.padding s.padding (s.width - s.padding)
    s.rightElements.reverse

/-- Every `element.draw(self.draw, pos_x, pos_y)` call made by
`Sign.save`, with its arguments, in execution order. -/
def Sign.savePositions (μ : FontMetrics) (s : Sign) :
    List (Element × ℤ × ℤ) :=
  s.leftPart μ ++ s.middlePart μ ++ s.rightPart μ

/-- Execute the draw calls of `Sign.save` in order, accumulating commands;
an exception aborts the remaining calls, keeping everything already drawn
— including the failing element's own partial commands, as the Python
exception would. Returns the commands applied to the canvas and the
exception, if any. -/
def renderPlaced (μ : FontMetrics) (table : List ColorRow) :
    List (Element × ℤ × ℤ) → List DrawCmd × Option String
  | [] => ([], none)
  | (e, x, y) :: rest =>
    let d := e.draw μ table x y
    match d.2 with
    | none =>
      let r := renderPlaced μ table rest
      (d.1 ++ r.1, r.2)
    | some msg => (d.1, some msg)

/-- The full rendering pass of `Sign.save`. -/
def Sign.render (μ : FontMetrics) (table : List ColorRow) (s : Sign) :
    List DrawCmd × Option String :=
  renderPlaced μ table (s.savePositions μ)

/-- Embeds `Sign.save`: run the three layout loops, drawing onto the shared
canvas, then write the image to `filename`. Returns the sign as it is
after the call (the method assigns to no attribute; only the canvas has
been drawn on) and either the written file or the propagated exception. -/
def Sign.save (μ : FontMetrics) (table : List ColorRow) (s : Sign)
    (filename : String) : Sign × Except String (String × List DrawCmd) :=
  let r := s.render μ table
  let s2 : Sign := ⟨s.width, s.height, s.background_color, s.padding,
    s.elements, s.image ++ r.1⟩
  match r.2 with
  | none => (s2, .ok (filename, s2.image))
  | some e => (s2, .error e)

/-- Spec-side definition (from the spec's words, for comparison with the
code): the middle group's starting x is "(signWidth − totalWidth) / 2,
floored", with totalWidth the sum of measured widths plus
padding × (count − 1). -/
def specMiddleStart (W p : ℤ) (ws : List ℤ) : ℤ :=
  (W - ws.sum - p * ((ws.length : ℤ) - 1)).fdiv 2

/-- Sample glyph metrics used to instantiate theorems on concrete inputs:
every glyph is 10 wide and the bbox bottom is 12. -/
def sampleMetrics : FontMetrics := fun _ s => ((s.length : ℚ) * 10, 12)

/-- A concrete 108-pixel right arrow. -/
def arrowA : Element := .arrow (Arrow.make 108 (.str ("white")) none ("right"))

/-- A concrete 60-pixel up arrow. -/
def arrowB : Element := .arrow (Arrow.make 60 (.str ("white")) none ("up"))

/-- A 512×128 sign holding `arrowA` then `arrowB`, both right-aligned. -/
def sRight : Sign :=
  ((Sign.make 512 128 (.str ("black")) none).add_element arrowA
    ("right")).add_element arrowB ("right")

/-- A 512×128 sign holding `arrowA` then `arrowB`, both left-aligned. -/
def sLeft : Sign :=
  ((Sign.make 512 128 (.str ("black")) none).add_element arrowA
    ("left")).add_element arrowB ("left")

/-- A 512×128 sign holding only `arrowA`, middle-aligned. -/
def sMiddle : Sign :=
  (Sign.make 512 128 (.str ("black")) none).add_element arrowA ("middle")

/-- A 512×128 sign with no elements at all (so its middle group is
empty). -/
def sEmpty : Sign := Sign.make 512 128 (.str ("black")) none

/-- A `NumberLine` value holding the three-digit identifier `"123"`
(all digits, so `__init__` accepts it; only `draw` rejects it). -/
def nlLong : NumberLine :=
  ⟨108, ["123"], .str ("white"),
   BilingualText.make sampleMetrics 108 ("号线") ("Line 123")
     (.str ("white")) .left⟩

/-- The `NumberLine` value produced by
`NumberLine(60, [1, 12])` under `sampleMetrics`. -/
def nlSample : NumberLine :=
  ⟨60, ["1", "12"], .str ("white"),
   BilingualText.make sampleMetrics 60 ("号线") ("Line 1,12")
     (.str ("white")) .left⟩

/-- A two-row colour table. -/
def sampleTable : List ColorRow :=
  [⟨"1", "#E4002B", "#FFFFFF"⟩, ⟨"2", "#97D700", "#FFFFFF"⟩]

/-- A one-row colour table whose only row is the three-digit identifier
`"123"`. -/
def tableWith123 : List ColorRow := [⟨"123", "#E4002B", "#FFFFFF"⟩]

/-- Helper: the exception of `NumberLine.draw` is exactly the exception of
its badge loop (the trailing label never raises). -/
lemma numberLine_draw_snd (nl : NumberLine) (μ : FontMetrics)
    (table : List ColorRow) (x y : ℤ) :
    (nl.draw μ table x y).2 =
      (NumberLine.drawBadges μ table nl.size nl.color y x nl.lines).2 := by
  simp only [NumberLine.draw]
  cases h : (NumberLine.drawBadges μ table nl.size nl.color y x nl.lines).2 <;>
    simp [h]

/-- Helper: if some identifier in the list has three or more characters,
the badge loop raises some exception (never silent). -/
lemma drawBadges_raises_of_long (μ : FontMetrics) (table : List ColorRow)
    (size : ℤ) (c : ColorType) (y : ℤ) :
    ∀ (lines : List String) (x : ℤ), (∃ l ∈ lines, 2 < l.length) →
    ((NumberLine.drawBadges μ table size c y x lines).2).isSome = true := by
  intro lines
  induction lines with
  | nil => intro x h; simp at h
  | cons line rest ih =>
    intro x h
    cases hgc : get_color table (.str line) with
    | error m => simp [NumberLine.drawBadges, hgc]
    | ok colors =>
      obtain ⟨l, hl, hlen⟩ := h
      rcases List.mem_cons.mp hl with rfl | hmem
      · have hc : ¬ (l.length = 1 ∨ l.length = 2) := by omega
        simp [NumberLine.drawBadges, hgc, hc]
      · by_cases hc : line.length = 1 ∨ line.length = 2
        · have hrest := ih (x + size) ⟨l, hmem, hlen⟩
          simp [NumberLine.drawBadges, hgc, hc, hrest]
        · simp [NumberLine.drawBadges, hgc, hc]

/-- Helper: when every identifier resolves in the colour table and some
identifier has three or more characters, the badge loop raises exactly
the length `ValueError`. -/
lemma drawBadges_length_error_of_found (μ : FontMetrics)
    (table : List ColorRow) (size : ℤ) (c : ColorType) (y : ℤ) :
    ∀ (lines : List String) (x : ℤ),
    (∀ l ∈ lines, ∃ pr, get_color table (.str l) = .ok pr) →
    (∃ l ∈ lines, 2 < l.length) →
    (NumberLine.drawBadges μ table size c y x lines).2 =
      some lengthErrMsg := by
  intro lines
  induction lines with
  | nil => intro x _ h; simp at h
  | cons line rest ih =>
    intro x hok h
    obtain ⟨pr, hgc⟩ := hok line (List.mem_cons_self line rest)
    obtain ⟨l, hl, hlen⟩ := h
    rcases List.mem_cons.mp hl with rfl | hmem
    · have hc : ¬ (l.length = 1 ∨ l.length = 2) := by omega
      simp [NumberLine.drawBadges, hgc, hc]
    · by_cases hc : line.length = 1 ∨ line.length = 2
      · have hrest := ih (x + size)
          (fun l2 hl2 => hok l2 (List.mem_cons_of_mem line hl2))
          ⟨l, hmem, hlen⟩
        simp [NumberLine.drawBadges, hgc, hc, hrest]
      · simp [NumberLine.drawBadges, hgc, hc]

/-- C1: for a Sign containing only right-aligned elements E1 and E2 added
in that order, with measured widths w1 and w2 and padding p, `Sign.save`
draws E2 at `x = signWidth - p - w2` and E1 at
`x = signWidth - p - w2 - p - w1`, processing the group in reverse
insertion order, subtracting each element's width before drawing it and
one padding after. -/
theorem C1_right_group_layout (μ : FontMetrics) (s : Sign) (E1 E2 : Element)
    (w1 w2 p W : ℤ)
    (helems : s.elements = [("right", E1), ("right", E2)])
    (hw1 : E1.width μ = w1) (hw2 : E2.width μ = w2)
    (hp : s.padding = p) (hW : s.width = W) :
    s.savePositions μ =
      [(E2, W - p - w2, p), (E1, W - p - w2 - p - w1, p)] := by
  simp [Sign.savePositions, Sign.leftPart, Sign.middlePart, Sign.rightPart,
    Sign.leftElements, Sign.middleElements, Sign.rightElements, helems,
    layoutRun, layoutRight, hw1, hw2, hp, hW, Sign.middleStartX,
    List.filter]

/-- Witness for C1 at a concrete sign: `arrowA` (width 108) then `arrowB`
(width 60), both right-aligned on a 512-wide sign with padding 10. -/
theorem C1_right_group_layout_witness :
    sRight.savePositions sampleMetrics =
      [(arrowB, 512 - 10 - 60, 10), (arrowA, 512 - 10 - 60 - 10 - 108, 10)] :=
  C1_right_group_layout sampleMetrics sRight arrowA arrowB 108 60 10 512
    (by decide) (by decide) (by decide) (by decide) (by decide)

/-- C2: for a Sign containing only left-aligned elements E1 and E2 added
in that order, with measured widths w1 and w2 and padding p, `Sign.save`
draws E1 at `x = p` and E2 at `x = p + w1 + p`, both at `y = p`; each
element advances the cursor by its measured width plus one padding. -/
theorem C2_left_group_layout (μ : FontMetrics) (s : Sign) (E1 E2 : Element)
    (w1 w2 p : ℤ)
    (helems : s.elements = [("left", E1), ("left", E2)])
    (hw1 : E1.width μ = w1) (hw2 : E2.width μ = w2)
    (hp : s.padding = p) :
    s.savePositions μ = [(E1, p, p), (E2, p + w1 + p, p)] := by
  simp [Sign.savePositions, Sign.leftPart, Sign.middlePart, Sign.rightPart,
    Sign.leftElements, Sign.middleElements, Sign.rightElements, helems,
    layoutRun, layoutRight, hw1, hw2, hp, Sign.middleStartX,
    List.filter]

/-- Witness for C2 at a concrete sign: `arrowA` (width 108) then `arrowB`
(width 60), both left-aligned, padding 10. -/
theorem C2_left_group_layout_witness :
    sLeft.savePositions sampleMetrics =
      [(arrowA, 10, 10), (arrowB, 10 + 108 + 10, 10)] :=
  C2_left_group_layout sampleMetrics sLeft arrowA arrowB 108 60 10
    (by decide) (by decide) (by decide) (by decide)

/-- C3: a Sign of width W with a single middle-aligned element of measured
width w draws it at `x = (W - w) / 2` (floor division), and in general the
middle group's starting x is `(signWidth - sum of widths -
padding * (count - 1)) / 2`, floored — the spec-side formula
`specMiddleStart`. -/
theorem C3_middle_group_centering (μ : FontMetrics) (s : Sign) (E : Element)
    (w p W : ℤ)
    (helems : s.elements = [("middle", E)])
    (hw : E.width μ = w) (hp : s.padding = p) (hW : s.width = W) :
    s.savePositions μ = [(E, (W - w).fdiv 2, p)] ∧
    ∀ s2 : Sign, s2.middleStartX μ =
      specMiddleStart s2.width s2.padding
        (s2.middleElements.map (Element.width μ)) := by
  constructor
  · simp [Sign.savePositions, Sign.leftPart, Sign.middlePart, Sign.rightPart,
      Sign.leftElements, Sign.middleElements, Sign.rightElements, helems,
      layoutRun, layoutRight, hw, hp, hW, Sign.middleStartX, List.filter]
  · intro s2
    simp [Sign.middleStartX, specMiddleStart]

/-- Witness for C3: `arrowA` (width 108) centred on a 512-wide sign lands
at `(512 - 108) // 2`; the starting-x formula instantiated at `sEmpty`. -/
theorem C3_middle_group_centering_witness :
    sMiddle.savePositions sampleMetrics =
      [(arrowA, ((512 : ℤ) - 108).fdiv 2, 10)] ∧
    sEmpty.middleStartX sampleMetrics =
      specMiddleStart sEmpty.width sEmpty.padding
        (sEmpty.middleElements.map (Element.width sampleMetrics)) :=
  ⟨(C3_middle_group_centering sampleMetrics sMiddle arrowA 108 10 512
      (by decide) (by decide) (by decide) (by decide)).1,
   (C3_middle_group_centering sampleMetrics sMiddle arrowA 108 10 512
      (by decide) (by decide) (by decide) (by decide)).2 sEmpty⟩

/-- C4 counterexample: on a 512×128 sign with no middle elements the
centering computation of `Sign.save` does not divide by the group size
and produces no division-by-zero or negative artifact: it evaluates to
`(512 + 10) // 2 = 261` (the divisor is the constant 2) and the whole
save completes without error. -/
theorem C4_empty_middle_no_division :
    sEmpty.middleStartX sampleMetrics = 261 ∧
    (sEmpty.save sampleMetrics [] ("out.png")).2 = .ok ("out.png", []) := by
  constructor
  · rfl
  · rfl

/-- C4 (amended): when the middle group is empty, `Sign.save` still runs
the centering computation rather than skipping it; `count - 1` is `-1`,
so the starting x evaluates to `(signWidth + padding) // 2` — a
well-defined value, since the division is by the constant 2, not by the
group size — and the empty group then places no element. -/
theorem C4_empty_middle_formula (μ : FontMetrics) (s : Sign)
    (hmid : s.middleElements = []) :
    s.middleStartX μ = (s.width + s.padding).fdiv 2 ∧
    s.middlePart μ = [] := by
  constructor
  · unfold Sign.middleStartX
    rw [hmid]
    norm_num
  · simp [Sign.middlePart, hmid, layoutRun]

/-- Witness for the amended C4 at the concrete empty sign. -/
theorem C4_empty_middle_formula_witness :
    sEmpty.middleStartX sampleMetrics =
      (sEmpty.width + sEmpty.padding).fdiv 2 ∧
    sEmpty.middlePart sampleMetrics = [] :=
  C4_empty_middle_formula sampleMetrics sEmpty (by decide)

/-- C5 counterexample: a three-digit identifier does not necessarily get
the length `ValueError` the claim promises: drawing a `NumberLine` whose
only identifier is `"123"` against a colour table with no `"123"` row
raises the colour-lookup `ValueError` from `get_color` (raised at the top
of the badge loop, before the length check is reached), not the length
validation error. -/
theorem C5_long_id_without_validation_error :
    nlLong.draw sampleMetrics sampleTable 0 0 =
      ([], some (colorErrMsg ("123"))) ∧
    colorErrMsg ("123") ≠ lengthErrMsg := by
  constructor
  · rfl
  · decide

/-- C5 (amended): `NumberLine.__init__` raises the digit `ValueError` for
any identifier containing a character that is not a digit in Python's
`str.isdigit` sense; an identifier longer than two characters is accepted
at construction, and once `draw` is called an error always surfaces
synchronously (never silently) — it is the length `ValueError` whenever
every identifier resolves in the colour table, but when a colour lookup
fails first the `get_color` error surfaces instead. -/
theorem C5_validation_amended :
    (∀ (μ : FontMetrics) (size : ℤ) (line : LineArg) (color : ColorType),
      (∃ l ∈ line.toStrings, ∃ c ∈ l.data, pyCharIsDigit c = false) →
      NumberLine.make μ size line color = .error digitErrMsg) ∧
    (∀ (μ : FontMetrics) (table : List ColorRow) (nl : NumberLine)
      (x y : ℤ), (∃ l ∈ nl.lines, 2 < l.length) →
      ((nl.draw μ table x y).2).isSome = true) ∧
    (∀ (μ : FontMetrics) (table : List ColorRow) (nl : NumberLine)
      (x y : ℤ),
      (∀ l ∈ nl.lines, ∃ pr, get_color table (.str l) = .ok pr) →
      (∃ l ∈ nl.lines, 2 < l.length) →
      (nl.draw μ table x y).2 = some lengthErrMsg) := by
  refine ⟨?_, ?_, ?_⟩
  · intro μ size line color ⟨l, hl, c, hc, hcd⟩
    have hfail : line.toStrings.all pyIsDigit = false := by
      rw [List.all_eq_false]
      refine ⟨l, hl, ?_⟩
      simp [pyIsDigit]
      intro _
      exact ⟨c, hc, by simpa using hcd⟩
    simp [NumberLine.make, hfail]
  · intro μ table nl x y h
    rw [numberLine_draw_snd]
    exact drawBadges_raises_of_long μ table nl.size nl.color y nl.lines x h
  · intro μ table nl x y hok h
    rw [numberLine_draw_snd]
    exact drawBadges_length_error_of_found μ table nl.size nl.color y
      nl.lines x hok h

/-- Witness for the amended C5: `"3a"` is rejected at construction with
the digit error; drawing `nlLong` (identifier `"123"`) raises against the
table without a `"123"` row, and raises exactly the length error against
`tableWith123`, where its colour lookup succeeds. -/
theorem C5_validation_amended_witness :
    (NumberLine.make sampleMetrics 108 (.single (.str ("3a")))
      (.str ("white")) = .error digitErrMsg) ∧
    ((nlLong.draw sampleMetrics sampleTable 0 0).2).isSome = true ∧
    (nlLong.draw sampleMetrics tableWith123 0 0).2 = some lengthErrMsg :=
  ⟨C5_validation_amended.1 sampleMetrics 108 (.single (.str ("3a")))
      (.str ("white")) ⟨"3a", by decide, 'a', by decide, by decide⟩,
   C5_validation_amended.2.1 sampleMetrics sampleTable nlLong 0 0
      ⟨"123", by decide, by decide⟩,
   C5_validation_amended.2.2 sampleMetrics tableWith123 nlLong 0 0
      (by
        intro l hl
        simp [nlLong] at hl
        subst hl
        exact ⟨("#E4002B", "#FFFFFF"), rfl⟩)
      ⟨"123", by decide, by decide⟩⟩

/-- C6 counterexample: an `Arrow` whose direction is the unrecognized
string `"diagonal"` is not drawn like the default direction `"left"`:
its draw calls differ from the `"left"` ones at the same position. -/
theorem C6_unrecognized_direction_not_left :
    (Arrow.make 100 (.str ("white")) (some 25) ("diagonal")).draw 0 0 ≠
    (Arrow.make 100 (.str ("white")) (some 25) ("left")).draw 0 0 := by
  decide

/-- C6 (amended): constructing an `Arrow` with any direction string raises
no error (the given string is stored as-is; the parameter defaults to
`"left"` only when omitted), but an unrecognized direction is not treated
as `"left"` at draw time: all three coordinate lists stay empty, so the
three draw calls are issued with empty geometry. -/
theorem C6_direction_amended (size : ℤ) (color : ColorType) (th : Option ℤ)
    (d : String) (x y : ℤ)
    (h1 : d ≠ "left") (h2 : d ≠ "right") (h3 : d ≠ "up") (h4 : d ≠ "down") :
    (Arrow.make size color th d).direction = d ∧
    (Arrow.make size color th d).draw x y =
      [DrawCmd.polygon [] color, DrawCmd.polygon [] color,
       DrawCmd.rectangle [] color none] := by
  constructor
  · rfl
  · simp [Arrow.draw, Arrow.make, h1, h2, h3, h4]

/-- Witness for the amended C6 at direction `"diagonal"`. -/
theorem C6_direction_amended_witness :
    (Arrow.make 100 (.str ("white")) (some 25) ("diagonal")).direction =
      "diagonal" ∧
    (Arrow.make 100 (.str ("white")) (some 25) ("diagonal")).draw 3 4 =
      [DrawCmd.polygon [] (.str ("white")),
       DrawCmd.polygon [] (.str ("white")),
       DrawCmd.rectangle [] (.str ("white")) none] :=
  C6_direction_amended 100 (.str ("white")) (some 25) "diagonal" 3 4
    (by decide) (by decide) (by decide) (by decide)

/-- C7: every `NumberLine` accepted by the constructor measures
`size × N + trailing label width` wide and `size` high, where N is the
number of identifiers. -/
theorem C7_numberline_get_size (μ : FontMetrics) (size : ℤ) (line : LineArg)
    (color : ColorType) (nl : NumberLine)
    (h : NumberLine.make μ size line color = .ok nl) :
    nl.get_size.width = size * nl.lines.length + nl.text.width ∧
    nl.get_size.height = size := by
  simp only [NumberLine.make] at h
  split at h
  · cases h
    simp [NumberLine.get_size]
  · cases h

/-- Witness for C7: `NumberLine(60, [1, 12])` under `sampleMetrics`. -/
theorem C7_numberline_get_size_witness :
    nlSample.get_size.width =
      60 * nlSample.lines.length + nlSample.text.width ∧
    nlSample.get_size.height = 60 :=
  C7_numberline_get_size sampleMetrics 60 (.list [.int 1, .int 12])
    (.str ("white")) nlSample (by rfl)

/-- C8: `get_color` is a pure function of the table and the identifier
compared as a string — equal string forms give equal results — and an
identifier matching no row always yields an error whose message contains
the identifier and the table's file name `colors.csv`. -/
theorem C8_get_color_properties :
    (∀ (table : List ColorRow) (l1 l2 : PyVal), l1.toStr = l2.toStr →
        get_color table l1 = get_color table l2) ∧
    (∀ (table : List ColorRow) (l : PyVal),
        (∀ row ∈ table, row.Line ≠ l.toStr) →
        ∃ pre mid post, get_color table l =
          .error (pre ++ l.toStr ++ mid ++ "colors.csv" ++ post)) := by
  constructor
  · intro table l1 l2 h
    unfold get_color
    rw [h]
  · intro table l h
    refine ⟨"未找到线路 ", " 的颜色信息，请检查 ", " 文件。", ?_⟩
    have hfind : table.find? (fun row => row.Line == l.toStr) = none := by
      rw [List.find?_eq_none]
      intro row hrow
      simpa using h row hrow
    simp [get_color, hfind, colorErrMsg, String.append_assoc]

/-- Witness for C8: the identifiers `1` (int) and `"1"` (str) resolve
identically in `sampleTable`, and the absent identifier `99` yields the
error message naming it and `colors.csv`. -/
theorem C8_get_color_properties_witness :
    get_color sampleTable (.int 1) = get_color sampleTable (.str ("1")) ∧
    ∃ pre mid post, get_color sampleTable (.int 99) =
      .error (pre ++ (PyVal.int 99).toStr ++ mid ++ "colors.csv" ++ post) :=
  ⟨C8_get_color_properties.1 sampleTable (.int 1) (.str ("1")) (by decide),
   C8_get_color_properties.2 sampleTable (.int 99) (by decide)⟩

/-- C9: `Sign.save` leaves the sign's observable state other than the
canvas unchanged — element list, width, height and padding are the same
after the call — and a second save re-renders the same draw calls from
the same element list onto the same canvas. -/
theorem C9_save_preserves_state (μ : FontMetrics) (table : List ColorRow)
    (s : Sign) (fn : String) :
    ((s.save μ table fn).1.elements = s.elements ∧
     (s.save μ table fn).1.width = s.width ∧
     (s.save μ table fn).1.height = s.height ∧
     (s.save μ table fn).1.padding = s.padding) ∧
    (s.save μ table fn).1.render μ table = s.render μ table := by
  obtain ⟨w, h, bg, p, els, img⟩ := s
  simp only [Sign.save]
  cases hr : (Sign.render μ table ⟨w, h, bg, p, els, img⟩).2 <;>
    simp [hr] <;> rfl

/-- C10: constructing a `NumberLine` from a single non-list identifier is
exactly constructing it from the one-element list of that identifier:
the constructor coerces both to the same digit-string list, validates
identically and produces equal elements (hence equal `get_size`). -/
theorem C10_single_list_equivalence (μ : FontMetrics) (size : ℤ)
    (l : PyVal) (color : ColorType) :
    NumberLine.make μ size (.single l) color =
    NumberLine.make μ size (.list [l]) color := rfl
